import Mathlib

/-!
Verification of the TGIR-Cap3DXWeaviate notebooks.

The repository holds two notebooks (src/monitor.ipynb and the unnamed
notebook src/unnamed/part_000) that configure a vector-database client,
open a scoped connection, assert liveness, read aggregate object counts,
fetch single objects by identifier, and print results.  The external
client library and store are modelled as an environment: a liveness flag,
a store of named collections of objects, and fault oracles that inject
the exceptions a library call may raise.  Each notebook session becomes a
function from this environment to a run result that records the outcome,
the final store, the printed output, the trace of database calls issued,
and the final connection state.
-/

/-- Identifier of a stored object (a string key formatted as a UUID). -/
abbrev Uuid := String

/-- A record of the external store: an identifier together with its named
vector slots, each an optional fixed-length numeric vector. -/
structure WObject where
  uuid : Uuid
  vectors : List (String × List Rat)
deriving DecidableEq

/-- A named collection of records in the external store. -/
structure Collection where
  name : String
  objects : List WObject
deriving DecidableEq

/-- The external vector-database store: its collections. -/
structure Store where
  collections : List Collection
deriving DecidableEq

/-- An exception of the embedded Python run: an assertion failure with its
message, a key lookup failure, or an exception raised inside the external
client library (network error, missing identifier, and so on). -/
inductive PyErr where
  | assertionError (msg : String)
  | keyError (key : String)
  | libraryError (description : String)
deriving DecidableEq

/-- One line of standard output.  Plain messages keep their source text;
formatted prints keep the values they interpolate. -/
inductive Line where
  | msg (s : String)
  | objectCount (collection : String) (n : Nat)
  | vecType (typeName : String)
  | vecLen (n : Nat)
  | vecHead (xs : List Rat)
deriving DecidableEq

/-- A database call issued through the client. -/
inductive DbCall where
  | getCollection (name : String)
  | aggregateCount (name : String)
  | fetchObjectById (collection : String) (uuid : Uuid) (includeVector : Bool)
deriving DecidableEq

/-- The environment a session runs against: the liveness the service
reports, the current store, and fault oracles giving the exception, if
any, that the aggregate call over a collection or the fetch of a given
identifier raises inside the library. -/
structure Env where
  live : Bool
  store : Store
  aggFault : String → Option PyErr
  fetchFault : Uuid → Option PyErr

/- Configuration constants, as in both notebooks. -/

def HTTP_HOST : String := "localhost"

def HTTP_PORT : Nat := 8080

def HTTP_SECURE : Bool := false

def GRPC_HOST : String := "localhost"

def GRPC_PORT : Nat := 50051

def GRPC_SECURE : Bool := false

def INTIALISATION_TIMEOUT_S : Nat := 2

def QUERY_TIMEOUT_S : Nat := 45

def INSERT_TIMEOUT_S : Nat := 120

def COLLECTION_NAME : String := "Cap3DMM"

def DATA_UPLOAD_COLLECTION_NAME : String := "UploadCap3DMM"

/-- Connection parameters passed to the client, as built by
ConnectionParams.from_params in both notebooks. -/
structure ConnectionParams where
  http_host : String
  http_port : Nat
  http_secure : Bool
  grpc_host : String
  grpc_port : Nat
  grpc_secure : Bool
deriving DecidableEq

/-- The three client timeouts, in seconds, as built by Timeout(...). -/
structure Timeout where
  init : Nat
  query : Nat
  insert : Nat
deriving DecidableEq

/-- Additional client configuration, as built by AdditionalConfig(...). -/
structure AdditionalConfig where
  timeout : Timeout
deriving DecidableEq

/-- The connection parameters both notebooks build from the constants. -/
def notebookConnectionParams : ConnectionParams :=
  { http_host := HTTP_HOST
    http_port := HTTP_PORT
    http_secure := HTTP_SECURE
    grpc_host := GRPC_HOST
    grpc_port := GRPC_PORT
    grpc_secure := GRPC_SECURE }

/-- The additional configuration both notebooks build from the constants. -/
def notebookAdditionalConfig : AdditionalConfig :=
  { timeout :=
      { init := INTIALISATION_TIMEOUT_S
        query := QUERY_TIMEOUT_S
        insert := INSERT_TIMEOUT_S } }

/-- Total object count of the collection with the given name, zero when
the store has no such collection. -/
def Store.countObjects (s : Store) (name : String) : Nat :=
  match s.collections.find? (fun c => c.name == name) with
  | some c => c.objects.length
  | none => 0

/-- Look up the object with the given identifier in the named collection
of the store; strip its vectors when includeVector is false. -/
def Store.fetchObject (s : Store) (name : String) (uuid : Uuid)
    (includeVector : Bool) : Option WObject :=
  match s.collections.find? (fun c => c.name == name) with
  | some c =>
      match c.objects.find? (fun o => o.uuid == uuid) with
      | some o => some (if includeVector then o else { o with vectors := [] })
      | none => none
  | none => none

/-- Modelled from the spec: the query surface "aggregate total object
count over a collection" of the external client library, which is not
part of this repository.  A server-side read of the store; the fault
oracle injects the library exceptions such a call may raise.  The store
is returned so that runs thread it through every call. -/
def aggregateOverAll (env : Env) (s : Store) (name : String) :
    Except PyErr Nat × Store :=
  match env.aggFault name with
  | some e => (.error e, s)
  | none => (.ok (s.countObjects name), s)

/-- Modelled from the spec: the query surface "fetch one object by
identifier, optionally including its vector" of the external client
library, which is not part of this repository.  Returns none when no
record has the identifier; the fault oracle injects library exceptions. -/
def fetchObjectById (env : Env) (s : Store) (name : String) (uuid : Uuid)
    (includeVector : Bool) : Except PyErr (Option WObject) × Store :=
  match env.fetchFault uuid with
  | some e => (.error e, s)
  | none => (.ok (s.fetchObject name uuid includeVector), s)

/-- Identifier fetched by the monitor notebook. -/
def monitorUuid : Uuid := "8e88212e-12ce-5942-954f-f49ed469dfe8"

/-- Identifier list of the unnamed upload notebook; its fetch uses the
first element. -/
def uploadUuids : List Uuid :=
  [ "46c932c1-d44e-5b30-95d7-4c8909d02fb8"
  , "91faaa0e-6a0f-5587-a2dd-fd6e2f3ca3e8"
  , "db04848b-c5dd-5ec1-a340-adcc209e9b5e"
  , "e574ddc1-3171-5a81-a3aa-d4e2928b9f54"
  , "baa41176-79e8-5fbb-8b16-7444f228f88a" ]

/-- The identifier uuids[0] the unnamed upload notebook fetches. -/
def uploadUuid0 : Uuid := uploadUuids.get ⟨0, by decide⟩

/-- The outcome of running the body of a with-block: result, final store,
printed output, and the trace of database calls issued, in order. -/
abbrev BodyResult := Except PyErr Unit × Store × List Line × List DbCall

/-- Body of the monitor notebook connection scope (src/monitor.ipynb,
cell 2): assert liveness, print the banner, get the Cap3DMM collection,
aggregate and print its count, fetch one object by identifier with its
vector, and when an object is returned print the type, length and first
five values of its default vector. -/
def monitorBody (env : Env) (s : Store) : BodyResult :=
  if env.live then
    let out1 : List Line := [.msg "Client connection established"]
    let calls1 : List DbCall :=
      [.getCollection COLLECTION_NAME, .aggregateCount COLLECTION_NAME]
    match aggregateOverAll env s COLLECTION_NAME with
    | (.error e, s1) => (.error e, s1, out1, calls1)
    | (.ok n, s1) =>
        let out2 := out1 ++ [.objectCount COLLECTION_NAME n]
        let calls2 :=
          calls1 ++ [.fetchObjectById COLLECTION_NAME monitorUuid true]
        match fetchObjectById env s1 COLLECTION_NAME monitorUuid true with
        | (.error e, s2) => (.error e, s2, out2, calls2)
        | (.ok none, s2) => (.ok (), s2, out2, calls2)
        | (.ok (some obj), s2) =>
            match obj.vectors.lookup "default" with
            | none => (.error (.keyError "default"), s2, out2, calls2)
            | some v =>
                (.ok (), s2,
                  out2 ++ [.vecType "list", .vecLen v.length,
                    .vecHead (v.take 5)],
                  calls2)
  else
    (.error (.assertionError "Weaviate client is not live"), s, [], [])

/-- Body of the unnamed upload notebook connection scope
(src/unnamed/part_000, first cell): assert liveness, print the banner,
get both collections and aggregate both counts, print both counts, then
fetch the first listed identifier with its vector; the result is bound
but not printed. -/
def uploadBody (env : Env) (s : Store) : BodyResult :=
  if env.live then
    let out1 : List Line := [.msg "Client connection established"]
    let calls1 : List DbCall :=
      [.getCollection COLLECTION_NAME, .aggregateCount COLLECTION_NAME]
    match aggregateOverAll env s COLLECTION_NAME with
    | (.error e, s1) => (.error e, s1, out1, calls1)
    | (.ok n1, s1) =>
        let calls2 := calls1 ++
          [.getCollection DATA_UPLOAD_COLLECTION_NAME,
           .aggregateCount DATA_UPLOAD_COLLECTION_NAME]
        match aggregateOverAll env s1 DATA_UPLOAD_COLLECTION_NAME with
        | (.error e, s2) => (.error e, s2, out1, calls2)
        | (.ok n2, s2) =>
            let out2 := out1 ++
              [.objectCount COLLECTION_NAME n1,
               .objectCount DATA_UPLOAD_COLLECTION_NAME n2]
            let calls3 := calls2 ++
              [.fetchObjectById COLLECTION_NAME uploadUuid0 true]
            match fetchObjectById env s2 COLLECTION_NAME uploadUuid0 true with
            | (.error e, s3) => (.error e, s3, out2, calls3)
            | (.ok _, s3) => (.ok (), s3, out2, calls3)
  else
    (.error (.assertionError "Weaviate client is not live"), s, [], [])

instance : DecidableEq (Except PyErr Unit)
  | .ok (), .ok () => isTrue rfl
  | .ok (), .error _ => isFalse (fun h => Except.noConfusion h)
  | .error _, .ok () => isFalse (fun h => Except.noConfusion h)
  | .error e, .error f =>
      if h : e = f then isTrue (by rw [h])
      else isFalse (fun hh => h (Except.error.inj hh))

/-- Result of a whole connection scope: the body outcome together with
the configuration the client was opened with and the final state of the
connection. -/
structure RunResult where
  result : Except PyErr Unit
  store : Store
  output : List Line
  calls : List DbCall
  connectionOpen : Bool
  params : ConnectionParams
  config : AdditionalConfig
deriving DecidableEq

/-- Modelled from the spec: the with-statement over the external client,
whose scoped lifetime is "guaranteed closed on exit, including on error".
The connection is opened with the given configuration, the body runs, and
whether it returns normally or raises, the connection is closed before
the scope is left; the body outcome passes through unchanged. -/
def withClient (params : ConnectionParams) (config : AdditionalConfig)
    (env : Env) (body : Env → Store → BodyResult) : RunResult :=
  let b := body env env.store
  { result := b.1
    store := b.2.1
    output := b.2.2.1
    calls := b.2.2.2
    connectionOpen := false
    params := params
    config := config }

/-- Full connection session of the monitor notebook. -/
def runMonitorSession (env : Env) : RunResult :=
  withClient notebookConnectionParams notebookAdditionalConfig env monitorBody

/-- Full connection session of the unnamed upload notebook. -/
def runUploadSession (env : Env) : RunResult :=
  withClient notebookConnectionParams notebookAdditionalConfig env uploadBody

/-- A directory snapshot: the immediate entries of the directory, in the
order the filesystem yields them. -/
structure DirSnapshot where
  entries : List String
deriving DecidableEq

/-- Path.iterdir over a fixed snapshot: yields the immediate entries. -/
def iterdir (d : DirSnapshot) : List String := d.entries

/-- The monitor notebook counting expression
len(list(path.iterdir())): materialise the iterator into a list and take
its length. -/
def lenListIterdir (d : DirSnapshot) : Nat := (iterdir d).length

/-- The upload notebook counting expression
sum(1 for underscore in path.iterdir()): sum one per yielded entry. -/
def sumOneIterdir (d : DirSnapshot) : Nat :=
  ((iterdir d).map (fun _ => (1 : Nat))).sum

/-- The number of immediate entries of a directory snapshot. -/
def numEntries (d : DirSnapshot) : Nat := d.entries.length

/-- Cell 1 of the monitor notebook: the displayed directory entry count. -/
def monitorCell1 (d : DirSnapshot) : Nat := lenListIterdir d

/-- A whole run of the monitor notebook: the directory entry count
displayed by cell 1 together with the connection session of cell 2. -/
def runMonitorNotebook (d : DirSnapshot) (env : Env) : Nat × RunResult :=
  (monitorCell1 d, runMonitorSession env)

/-- The lines of an output that are about a vector: the type, length and
leading-values prints. -/
def vecLines (ls : List Line) : List Line :=
  ls.filter (fun l =>
    match l with
    | .vecType _ => true
    | .vecLen _ => true
    | .vecHead _ => true
    | _ => false)

/-- The object, if any, the monitor notebook fetch call returns in a run
whose fetch does not raise. -/
def monitorFetch (env : Env) : Option WObject :=
  env.store.fetchObject COLLECTION_NAME monitorUuid true

/-- Formalisation of the claim phrase "produces a comparison between
them" for the monitor notebook: the produced outputs depend jointly on
the two numbers, i.e. the connection-session output can change when only
the directory snapshot changes, or the displayed directory count can
change when only the environment changes. -/
def producesComparison (d dp : DirSnapshot) (e ep : Env) : Prop :=
  (runMonitorNotebook d e).2 ≠ (runMonitorNotebook dp e).2 ∨
  (runMonitorNotebook d e).1 ≠ (runMonitorNotebook d ep).1

/- Output fragments and call traces appearing in the branch
characterisations of the two bodies. -/

/-- Monitor output after the count print: banner plus collection count. -/
def monitorOut2 (n : Nat) : List Line :=
  [.msg "Client connection established", .objectCount COLLECTION_NAME n]

/-- Every database call the monitor notebook issues, in order. -/
def monitorCalls : List DbCall :=
  [.getCollection COLLECTION_NAME, .aggregateCount COLLECTION_NAME,
   .fetchObjectById COLLECTION_NAME monitorUuid true]

/-- Upload-notebook output after both count prints. -/
def uploadOut2 (n1 n2 : Nat) : List Line :=
  [.msg "Client connection established",
   .objectCount COLLECTION_NAME n1,
   .objectCount DATA_UPLOAD_COLLECTION_NAME n2]

/-- Calls the upload notebook has issued once the first aggregate ran. -/
def uploadCallsA : List DbCall :=
  [.getCollection COLLECTION_NAME, .aggregateCount COLLECTION_NAME]

/-- Calls the upload notebook has issued once both aggregates ran. -/
def uploadCallsB : List DbCall :=
  uploadCallsA ++
    [.getCollection DATA_UPLOAD_COLLECTION_NAME,
     .aggregateCount DATA_UPLOAD_COLLECTION_NAME]

/-- Every database call the upload notebook issues, in order. -/
def uploadCallsC : List DbCall :=
  uploadCallsB ++ [.fetchObjectById COLLECTION_NAME uploadUuid0 true]

/- Concrete environments and snapshots used as witnesses. -/

/-- Fault oracle that never raises. -/
def noAggFault : String → Option PyErr := fun _ => none

/-- Fault oracle that never raises. -/
def noFetchFault : Uuid → Option PyErr := fun _ => none

/-- The empty store. -/
def emptyStore : Store := ⟨[]⟩

/-- An environment whose service reports not-live. -/
def envDead : Env := ⟨false, emptyStore, noAggFault, noFetchFault⟩

/-- A live, fault-free environment over the empty store. -/
def envLiveEmpty : Env := ⟨true, emptyStore, noAggFault, noFetchFault⟩

/-- The monitored object without any vector slot. -/
def objNoVec : WObject := ⟨monitorUuid, []⟩

/-- A store whose Cap3DMM collection holds the monitored object without
any vector slot. -/
def storeNoVec : Store := ⟨[⟨COLLECTION_NAME, [objNoVec]⟩]⟩

/-- A live, fault-free environment where the fetched object has no
default vector, as in the recorded upload-notebook session where
obj.vector was empty. -/
def envNoVec : Env := ⟨true, storeNoVec, noAggFault, noFetchFault⟩

/-- A six-value vector used as a concrete default-slot vector. -/
def vecSix : List Rat := [1, 2, 3, 4, 5, 6]

/-- The monitored object carrying a default-slot vector. -/
def objWithVec : WObject := ⟨monitorUuid, [("default", vecSix)]⟩

/-- A store whose Cap3DMM collection holds the monitored object with a
default-slot vector. -/
def storeWithVec : Store := ⟨[⟨COLLECTION_NAME, [objWithVec]⟩]⟩

/-- A live, fault-free environment where the fetch finds an object with
a default-slot vector. -/
def envWithVec : Env := ⟨true, storeWithVec, noAggFault, noFetchFault⟩

/-- A store whose Cap3DMM collection holds five vectorless objects. -/
def storeFive : Store :=
  ⟨[⟨COLLECTION_NAME,
     [⟨"u1", []⟩, ⟨"u2", []⟩, ⟨"u3", []⟩, ⟨"u4", []⟩, ⟨"u5", []⟩]⟩]⟩

/-- A live, fault-free environment over a five-object store. -/
def envFive : Env := ⟨true, storeFive, noAggFault, noFetchFault⟩

/-- A store whose Cap3DMM collection holds seven vectorless objects. -/
def storeSeven : Store :=
  ⟨[⟨COLLECTION_NAME,
     [⟨"u1", []⟩, ⟨"u2", []⟩, ⟨"u3", []⟩, ⟨"u4", []⟩, ⟨"u5", []⟩,
      ⟨"u6", []⟩, ⟨"u7", []⟩]⟩]⟩

/-- A live, fault-free environment over a seven-object store. -/
def envSeven : Env := ⟨true, storeSeven, noAggFault, noFetchFault⟩

/-- An environment whose aggregate over Cap3DMM raises a library error. -/
def envAggFail : Env :=
  ⟨true, emptyStore,
   fun n => if n == COLLECTION_NAME then some (.libraryError "connection reset") else none,
   noFetchFault⟩

/-- An environment whose fetch of the monitored identifier raises a
library error. -/
def envFetchFail : Env :=
  ⟨true, emptyStore, noAggFault,
   fun u => if u == monitorUuid then some (.libraryError "deadline exceeded") else none⟩

/-- An environment whose fetch of the upload-notebook identifier raises
a library error. -/
def envUploadFetchFail : Env :=
  ⟨true, emptyStore, noAggFault,
   fun u => if u == uploadUuid0 then some (.libraryError "stream removed") else none⟩

/-- A directory snapshot with three entries. -/
def dirThree : DirSnapshot := ⟨["a", "b", "c"]⟩

/-- A directory snapshot with four entries. -/
def dirFour : DirSnapshot := ⟨["a", "b", "c", "d"]⟩

/- Branch characterisations of the monitor body. -/

/-- When the service is not live, the monitor body stops at the failed
assertion: nothing printed, no call issued, store untouched. -/
theorem monitorBody_dead (env : Env) (s : Store) (h : env.live = false) :
    monitorBody env s =
      (.error (.assertionError "Weaviate client is not live"), s, [], []) := by
  simp [monitorBody, h]

/-- When live but the aggregate raises, the monitor body propagates that
exception after the banner print and the first two calls. -/
theorem monitorBody_aggFault (env : Env) (s : Store) (e : PyErr)
    (hl : env.live = true) (hA : env.aggFault COLLECTION_NAME = some e) :
    monitorBody env s =
      (.error e, s, [.msg "Client connection established"],
        [.getCollection COLLECTION_NAME, .aggregateCount COLLECTION_NAME]) := by
  simp [monitorBody, aggregateOverAll, hl, hA]

/-- When live, aggregate clean, but the fetch raises, the monitor body
propagates that exception after the count print and all three calls. -/
theorem monitorBody_fetchFault (env : Env) (s : Store) (e : PyErr)
    (hl : env.live = true) (hA : env.aggFault COLLECTION_NAME = none)
    (hF : env.fetchFault monitorUuid = some e) :
    monitorBody env s =
      (.error e, s, monitorOut2 (s.countObjects COLLECTION_NAME),
        monitorCalls) := by
  simp [monitorBody, aggregateOverAll, fetchObjectById, monitorOut2,
    monitorCalls, hl, hA, hF]

/-- When live and fault free but no record has the identifier, the
monitor body completes normally with no vector line printed. -/
theorem monitorBody_notFound (env : Env) (s : Store)
    (hl : env.live = true) (hA : env.aggFault COLLECTION_NAME = none)
    (hF : env.fetchFault monitorUuid = none)
    (hO : s.fetchObject COLLECTION_NAME monitorUuid true = none) :
    monitorBody env s =
      (.ok (), s, monitorOut2 (s.countObjects COLLECTION_NAME),
        monitorCalls) := by
  simp [monitorBody, aggregateOverAll, fetchObjectById, monitorOut2,
    monitorCalls, hl, hA, hF, hO]

/-- When the fetched record has no default-slot vector, the monitor body
raises a key error before any vector line is printed. -/
theorem monitorBody_noDefault (env : Env) (s : Store) (o : WObject)
    (hl : env.live = true) (hA : env.aggFault COLLECTION_NAME = none)
    (hF : env.fetchFault monitorUuid = none)
    (hO : s.fetchObject COLLECTION_NAME monitorUuid true = some o)
    (hV : o.vectors.lookup "default" = none) :
    monitorBody env s =
      (.error (.keyError "default"), s,
        monitorOut2 (s.countObjects COLLECTION_NAME), monitorCalls) := by
  simp [monitorBody, aggregateOverAll, fetchObjectById, monitorOut2,
    monitorCalls, hl, hA, hF, hO, hV]

/-- When the fetched record has a default-slot vector, the monitor body
completes normally with exactly the type, length and first-five prints. -/
theorem monitorBody_found (env : Env) (s : Store) (o : WObject)
    (v : List Rat)
    (hl : env.live = true) (hA : env.aggFault COLLECTION_NAME = none)
    (hF : env.fetchFault monitorUuid = none)
    (hO : s.fetchObject COLLECTION_NAME monitorUuid true = some o)
    (hV : o.vectors.lookup "default" = some v) :
    monitorBody env s =
      (.ok (), s,
        monitorOut2 (s.countObjects COLLECTION_NAME) ++
          [.vecType "list", .vecLen v.length, .vecHead (v.take 5)],
        monitorCalls) := by
  simp [monitorBody, aggregateOverAll, fetchObjectById, monitorOut2,
    monitorCalls, hl, hA, hF, hO, hV]

/- Branch characterisations of the upload body. -/

/-- When the service is not live, the upload body stops at the failed
assertion: nothing printed, no call issued, store untouched. -/
theorem uploadBody_dead (env : Env) (s : Store) (h : env.live = false) :
    uploadBody env s =
      (.error (.assertionError "Weaviate client is not live"), s, [], []) := by
  simp [uploadBody, h]

/-- When live but the first aggregate raises, the upload body propagates
that exception after the banner print and the first two calls. -/
theorem uploadBody_aggFaultA (env : Env) (s : Store) (e : PyErr)
    (hl : env.live = true) (hA : env.aggFault COLLECTION_NAME = some e) :
    uploadBody env s =
      (.error e, s, [.msg "Client connection established"], uploadCallsA) := by
  simp [uploadBody, aggregateOverAll, uploadCallsA, hl, hA]

/-- When live, first aggregate clean, second aggregate raising, the
upload body propagates that exception before either count is printed. -/
theorem uploadBody_aggFaultB (env : Env) (s : Store) (e : PyErr)
    (hl : env.live = true) (hA : env.aggFault COLLECTION_NAME = none)
    (hB : env.aggFault DATA_UPLOAD_COLLECTION_NAME = some e) :
    uploadBody env s =
      (.error e, s, [.msg "Client connection established"],
        uploadCallsB) := by
  simp [uploadBody, aggregateOverAll, uploadCallsA, uploadCallsB, hl, hA, hB]

/-- When live, both aggregates clean, but the fetch raises, the upload
body propagates that exception after both count prints and all calls. -/
theorem uploadBody_fetchFault (env : Env) (s : Store) (e : PyErr)
    (hl : env.live = true) (hA : env.aggFault COLLECTION_NAME = none)
    (hB : env.aggFault DATA_UPLOAD_COLLECTION_NAME = none)
    (hF : env.fetchFault uploadUuid0 = some e) :
    uploadBody env s =
      (.error e, s,
        uploadOut2 (s.countObjects COLLECTION_NAME)
          (s.countObjects DATA_UPLOAD_COLLECTION_NAME),
        uploadCallsC) := by
  simp [uploadBody, aggregateOverAll, fetchObjectById, uploadOut2,
    uploadCallsA, uploadCallsB, uploadCallsC, hl, hA, hB, hF]

/-- When live and fault free, the upload body completes normally with
exactly the banner and the two count prints; the fetched object is bound
but never printed. -/
theorem uploadBody_ok (env : Env) (s : Store)
    (hl : env.live = true) (hA : env.aggFault COLLECTION_NAME = none)
    (hB : env.aggFault DATA_UPLOAD_COLLECTION_NAME = none)
    (hF : env.fetchFault uploadUuid0 = none) :
    uploadBody env s =
      (.ok (), s,
        uploadOut2 (s.countObjects COLLECTION_NAME)
          (s.countObjects DATA_UPLOAD_COLLECTION_NAME),
        uploadCallsC) := by
  simp [uploadBody, aggregateOverAll, fetchObjectById, uploadOut2,
    uploadCallsA, uploadCallsB, uploadCallsC, hl, hA, hB, hF]

/- Projections of the two sessions onto their body. -/

/-- The monitor session is the monitor body run over the environment
store, with the connection closed on exit and the constant
configuration recorded. -/
theorem runMonitorSession_eq (env : Env) :
    runMonitorSession env =
      { result := (monitorBody env env.store).1
        store := (monitorBody env env.store).2.1
        output := (monitorBody env env.store).2.2.1
        calls := (monitorBody env env.store).2.2.2
        connectionOpen := false
        params := notebookConnectionParams
        config := notebookAdditionalConfig } := rfl

/-- The upload session is the upload body run over the environment
store, with the connection closed on exit and the constant
configuration recorded. -/
theorem runUploadSession_eq (env : Env) :
    runUploadSession env =
      { result := (uploadBody env env.store).1
        store := (uploadBody env env.store).2.1
        output := (uploadBody env env.store).2.2.1
        calls := (uploadBody env env.store).2.2.2
        connectionOpen := false
        params := notebookConnectionParams
        config := notebookAdditionalConfig } := rfl

/- Cascades over every oracle branch of the two bodies. -/

/-- The monitor body returns the store it was given on every path. -/
theorem monitorBody_store (env : Env) (s : Store) :
    (monitorBody env s).2.1 = s := by
  rcases hl : env.live
  · rw [monitorBody_dead env s hl]
  · rcases hA : env.aggFault COLLECTION_NAME with _ | e
    · rcases hF : env.fetchFault monitorUuid with _ | e
      · rcases hO : s.fetchObject COLLECTION_NAME monitorUuid true with _ | o
        · rw [monitorBody_notFound env s hl hA hF hO]
        · rcases hV : o.vectors.lookup "default" with _ | v
          · rw [monitorBody_noDefault env s o hl hA hF hO hV]
          · rw [monitorBody_found env s o v hl hA hF hO hV]
      · rw [monitorBody_fetchFault env s e hl hA hF]
    · rw [monitorBody_aggFault env s e hl hA]

/-- The upload body returns the store it was given on every path. -/
theorem uploadBody_store (env : Env) (s : Store) :
    (uploadBody env s).2.1 = s := by
  rcases hl : env.live
  · rw [uploadBody_dead env s hl]
  · rcases hA : env.aggFault COLLECTION_NAME with _ | e
    · rcases hB : env.aggFault DATA_UPLOAD_COLLECTION_NAME with _ | e
      · rcases hF : env.fetchFault uploadUuid0 with _ | e
        · rw [uploadBody_ok env s hl hA hB hF]
        · rw [uploadBody_fetchFault env s e hl hA hB hF]
      · rw [uploadBody_aggFaultB env s e hl hA hB]
    · rw [uploadBody_aggFaultA env s e hl hA]

/-- On every live path the monitor body prints the banner first, and its
call trace is either the first two calls or all three. -/
theorem monitorBody_live (env : Env) (s : Store) (hl : env.live = true) :
    ((monitorBody env s).2.2.1).head? =
        some (.msg "Client connection established")
  ∧ ((monitorBody env s).2.2.2 =
        [.getCollection COLLECTION_NAME, .aggregateCount COLLECTION_NAME]
      ∨ (monitorBody env s).2.2.2 = monitorCalls) := by
  rcases hA : env.aggFault COLLECTION_NAME with _ | e
  · rcases hF : env.fetchFault monitorUuid with _ | e
    · rcases hO : s.fetchObject COLLECTION_NAME monitorUuid true with _ | o
      · rw [monitorBody_notFound env s hl hA hF hO]; simp [monitorOut2]
      · rcases hV : o.vectors.lookup "default" with _ | v
        · rw [monitorBody_noDefault env s o hl hA hF hO hV]
          simp [monitorOut2]
        · rw [monitorBody_found env s o v hl hA hF hO hV]
          simp [monitorOut2]
    · rw [monitorBody_fetchFault env s e hl hA hF]; simp [monitorOut2]
  · rw [monitorBody_aggFault env s e hl hA]; simp

/-- On every live path the upload body prints the banner first, and its
call trace is one of the three issued prefixes. -/
theorem uploadBody_live (env : Env) (s : Store) (hl : env.live = true) :
    ((uploadBody env s).2.2.1).head? =
        some (.msg "Client connection established")
  ∧ ((uploadBody env s).2.2.2 = uploadCallsA
      ∨ (uploadBody env s).2.2.2 = uploadCallsB
      ∨ (uploadBody env s).2.2.2 = uploadCallsC) := by
  rcases hA : env.aggFault COLLECTION_NAME with _ | e
  · rcases hB : env.aggFault DATA_UPLOAD_COLLECTION_NAME with _ | e
    · rcases hF : env.fetchFault uploadUuid0 with _ | e
      · rw [uploadBody_ok env s hl hA hB hF]; simp [uploadOut2]
      · rw [uploadBody_fetchFault env s e hl hA hB hF]; simp [uploadOut2]
    · rw [uploadBody_aggFaultB env s e hl hA hB]; simp
  · rw [uploadBody_aggFaultA env s e hl hA]; simp

/-- The monitor call trace is one of three explicit lists on every path. -/
theorem monitorBody_calls (env : Env) (s : Store) :
    (monitorBody env s).2.2.2 = []
  ∨ (monitorBody env s).2.2.2 =
      [.getCollection COLLECTION_NAME, .aggregateCount COLLECTION_NAME]
  ∨ (monitorBody env s).2.2.2 = monitorCalls := by
  rcases hl : env.live
  · rw [monitorBody_dead env s hl]; left; rfl
  · right; exact (monitorBody_live env s hl).2

/-- The upload call trace is one of four explicit lists on every path. -/
theorem uploadBody_calls (env : Env) (s : Store) :
    (uploadBody env s).2.2.2 = []
  ∨ (uploadBody env s).2.2.2 = uploadCallsA
  ∨ (uploadBody env s).2.2.2 = uploadCallsB
  ∨ (uploadBody env s).2.2.2 = uploadCallsC := by
  rcases hl : env.live
  · rw [uploadBody_dead env s hl]; left; rfl
  · right; exact (uploadBody_live env s hl).2

/-- C1: For every session, if the liveness check performed immediately
after the connection is opened reports not-live, the script halts with an
assertion failure whose message is exactly "Weaviate client is not live"
and no collection query is ever issued; if it reports live, execution
continues past the assertion, reaching the banner print that follows it. -/
theorem claim_C1 (env : Env) :
    (env.live = false →
      (runMonitorSession env).result =
          .error (.assertionError "Weaviate client is not live")
        ∧ (runMonitorSession env).calls = []
        ∧ (runUploadSession env).result =
          .error (.assertionError "Weaviate client is not live")
        ∧ (runUploadSession env).calls = [])
  ∧ (env.live = true →
      (runMonitorSession env).output.head? =
          some (.msg "Client connection established")
        ∧ (runUploadSession env).output.head? =
          some (.msg "Client connection established")) := by
  constructor
  · intro h
    rw [runMonitorSession_eq, runUploadSession_eq,
      monitorBody_dead env env.store h, uploadBody_dead env env.store h]
    exact ⟨rfl, rfl, rfl, rfl⟩
  · intro h
    exact ⟨(monitorBody_live env env.store h).1,
      (uploadBody_live env env.store h).1⟩

/-- Witness for C1 at a dead and at a live concrete environment. -/
theorem claim_C1_witness :
    ((runMonitorSession envDead).result =
        .error (.assertionError "Weaviate client is not live")
      ∧ (runMonitorSession envDead).calls = []
      ∧ (runUploadSession envDead).result =
        .error (.assertionError "Weaviate client is not live")
      ∧ (runUploadSession envDead).calls = [])
  ∧ ((runMonitorSession envLiveEmpty).output.head? =
        some (.msg "Client connection established")
      ∧ (runUploadSession envLiveEmpty).output.head? =
        some (.msg "Client connection established")) :=
  ⟨(claim_C1 envDead).1 rfl, (claim_C1 envLiveEmpty).2 rfl⟩

/-- C2: For every execution of the connection scope, the client
connection is released when control leaves the scope, on normal
completion and when an exception is raised inside the scope alike; the
two concrete runs show both outcomes actually occur. -/
theorem claim_C2 (env : Env) :
    (runMonitorSession env).connectionOpen = false
  ∧ (runUploadSession env).connectionOpen = false
  ∧ (runMonitorSession envWithVec).result = .ok ()
  ∧ (runMonitorSession envNoVec).result = .error (.keyError "default") :=
  ⟨rfl, rfl, by decide, by decide⟩

/-- C3: Every database call issued by either notebook is read-only: the
store after a whole session equals the store before it, on every path. -/
theorem claim_C3 (env : Env) :
    (runMonitorSession env).store = env.store
  ∧ (runUploadSession env).store = env.store :=
  ⟨monitorBody_store env env.store, uploadBody_store env env.store⟩

/-- C6: Apart from the liveness assertion the notebooks install no
exception handler: an exception raised by a library call propagates
unchanged to the top of the cell, and no call is retried — on every path
the call trace has no duplicate. -/
theorem claim_C6 (env : Env) :
    (∀ e, env.live = true → env.aggFault COLLECTION_NAME = some e →
        (runMonitorSession env).result = .error e
      ∧ (runUploadSession env).result = .error e)
  ∧ (∀ e, env.live = true → env.aggFault COLLECTION_NAME = none →
        env.fetchFault monitorUuid = some e →
        (runMonitorSession env).result = .error e)
  ∧ (∀ e, env.live = true → env.aggFault COLLECTION_NAME = none →
        env.aggFault DATA_UPLOAD_COLLECTION_NAME = some e →
        (runUploadSession env).result = .error e)
  ∧ (∀ e, env.live = true → env.aggFault COLLECTION_NAME = none →
        env.aggFault DATA_UPLOAD_COLLECTION_NAME = none →
        env.fetchFault uploadUuid0 = some e →
        (runUploadSession env).result = .error e)
  ∧ (runMonitorSession env).calls.Nodup
  ∧ (runUploadSession env).calls.Nodup := by
  refine ⟨?_, ?_, ?_, ?_, ?_, ?_⟩
  · intro e hl hA
    rw [runMonitorSession_eq, runUploadSession_eq,
      monitorBody_aggFault env env.store e hl hA,
      uploadBody_aggFaultA env env.store e hl hA]
    exact ⟨rfl, rfl⟩
  · intro e hl hA hF
    rw [runMonitorSession_eq, monitorBody_fetchFault env env.store e hl hA hF]
  · intro e hl hA hB
    rw [runUploadSession_eq, uploadBody_aggFaultB env env.store e hl hA hB]
  · intro e hl hA hB hF
    rw [runUploadSession_eq, uploadBody_fetchFault env env.store e hl hA hB hF]
  · have hr : (runMonitorSession env).calls =
        (monitorBody env env.store).2.2.2 := rfl
    rw [hr]
    rcases monitorBody_calls env env.store with h | h | h <;> rw [h] <;> decide
  · have hr : (runUploadSession env).calls =
        (uploadBody env env.store).2.2.2 := rfl
    rw [hr]
    rcases uploadBody_calls env env.store with h | h | h | h <;> rw [h] <;> decide

/-- Witness for C6: concrete injected library errors propagate unchanged
and the concrete call traces have no duplicate. -/
theorem claim_C6_witness :
    ((runMonitorSession envAggFail).result =
        .error (.libraryError "connection reset")
      ∧ (runUploadSession envAggFail).result =
        .error (.libraryError "connection reset"))
  ∧ (runMonitorSession envFetchFail).result =
      .error (.libraryError "deadline exceeded")
  ∧ (runUploadSession envUploadFetchFail).result =
      .error (.libraryError "stream removed")
  ∧ (runMonitorSession envAggFail).calls.Nodup :=
  ⟨(claim_C6 envAggFail).1 (.libraryError "connection reset") rfl (by decide),
   (claim_C6 envFetchFail).2.1 (.libraryError "deadline exceeded") rfl rfl
     (by decide),
   (claim_C6 envUploadFetchFail).2.2.2.1 (.libraryError "stream removed")
     rfl rfl rfl (by decide),
   (claim_C6 envAggFail).2.2.2.2.1⟩

/-- Sum of one per element of a list is its length. -/
theorem sum_map_one (l : List String) :
    (l.map (fun _ => (1 : Nat))).sum = l.length := by
  induction l with
  | nil => rfl
  | cons a t ih => simp [ih, Nat.add_comm]

/-- C4 (amended): the monitor notebook polls upload progress by computing
both numbers — the directory entry count of the filesystem path, and the
database object count it prints — and displaying each for manual
comparison; it never computes a comparison value, so no produced output
depends jointly on the two numbers. -/
theorem claim_C4 (d : DirSnapshot) (env : Env)
    (hl : env.live = true) (hA : env.aggFault COLLECTION_NAME = none) :
    (runMonitorNotebook d env).1 = numEntries d
  ∧ Line.objectCount COLLECTION_NAME (env.store.countObjects COLLECTION_NAME)
      ∈ (runMonitorNotebook d env).2.output
  ∧ ∀ dp ep, ¬ producesComparison d dp env ep := by
  refine ⟨rfl, ?_, ?_⟩
  · have hr : (runMonitorNotebook d env).2.output =
        (monitorBody env env.store).2.2.1 := rfl
    rw [hr]
    rcases hF : env.fetchFault monitorUuid with _ | e
    · rcases hO : env.store.fetchObject COLLECTION_NAME monitorUuid true
          with _ | o
      · rw [monitorBody_notFound env env.store hl hA hF hO]
        simp [monitorOut2]
      · rcases hV : o.vectors.lookup "default" with _ | v
        · rw [monitorBody_noDefault env env.store o hl hA hF hO hV]
          simp [monitorOut2]
        · rw [monitorBody_found env env.store o v hl hA hF hO hV]
          simp [monitorOut2]
    · rw [monitorBody_fetchFault env env.store e hl hA hF]
      simp [monitorOut2]
  · intro dp ep
    simp [producesComparison, runMonitorNotebook]

/-- Witness for C4 at a concrete snapshot and environment. -/
theorem claim_C4_witness :
    (runMonitorNotebook dirThree envFive).1 = numEntries dirThree
  ∧ Line.objectCount COLLECTION_NAME
      (envFive.store.countObjects COLLECTION_NAME)
      ∈ (runMonitorNotebook dirThree envFive).2.output :=
  ⟨(claim_C4 dirThree envFive rfl rfl).1,
   (claim_C4 dirThree envFive rfl rfl).2.1⟩

/-- Counterexample to C4 as stated: in the run over a three-entry
directory and a five-object store the notebook computes both numbers,
three and five, and they differ, yet it produces no comparison between
them — the session output is unchanged when only the directory changes,
and the displayed directory count is unchanged when only the store
changes. -/
theorem claim_C4_counterexample :
    monitorCell1 dirThree = 3
  ∧ Line.objectCount COLLECTION_NAME 5
      ∈ (runMonitorNotebook dirThree envFive).2.output
  ∧ (3 : Nat) ≠ 5
  ∧ ¬ producesComparison dirThree dirFour envFive envSeven := by
  refine ⟨rfl, by decide, by decide, ?_⟩
  simp only [producesComparison, runMonitorNotebook]
  decide

/-- C5 (amended): for every fault-free fetch of the monitor notebook, if
no record is returned nothing about a vector is printed; if a record is
returned carrying a default-slot vector, exactly the three vector prints
appear — type, length, first five values, in that order; if a record is
returned without a default-slot vector, a key error propagates and
nothing about a vector is printed. -/
theorem claim_C5 (env : Env) (hl : env.live = true)
    (hA : env.aggFault COLLECTION_NAME = none)
    (hF : env.fetchFault monitorUuid = none) :
    (monitorFetch env = none →
      vecLines (runMonitorSession env).output = [])
  ∧ (∀ o v, monitorFetch env = some o →
      o.vectors.lookup "default" = some v →
      vecLines (runMonitorSession env).output =
        [.vecType "list", .vecLen v.length, .vecHead (v.take 5)])
  ∧ (∀ o, monitorFetch env = some o →
      o.vectors.lookup "default" = none →
      (runMonitorSession env).result = .error (.keyError "default")
      ∧ vecLines (runMonitorSession env).output = []) := by
  have hr : (runMonitorSession env).output =
      (monitorBody env env.store).2.2.1 := rfl
  have hres : (runMonitorSession env).result =
      (monitorBody env env.store).1 := rfl
  refine ⟨?_, ?_, ?_⟩
  · intro hO
    rw [hr, monitorBody_notFound env env.store hl hA hF hO]
    rfl
  · intro o v hO hV
    rw [hr, monitorBody_found env env.store o v hl hA hF hO hV]
    rfl
  · intro o hO hV
    constructor
    · rw [hres, monitorBody_noDefault env env.store o hl hA hF hO hV]
    · rw [hr, monitorBody_noDefault env env.store o hl hA hF hO hV]
      rfl

/-- Witness for C5 at an environment whose fetched record carries a
six-value default vector. -/
theorem claim_C5_witness :
    vecLines (runMonitorSession envWithVec).output =
      [.vecType "list", .vecLen vecSix.length, .vecHead (vecSix.take 5)] :=
  (claim_C5 envWithVec rfl rfl rfl).2.1 objWithVec vecSix rfl rfl

/-- Counterexample to C5 as stated: in the environment matching the
recorded session where the fetched record had an empty vector map, a
record is returned, yet nothing about a vector is printed — the lookup
of the default slot raises a key error before the first vector print. -/
theorem claim_C5_counterexample :
    monitorFetch envNoVec = some objNoVec
  ∧ (runMonitorSession envNoVec).result = .error (.keyError "default")
  ∧ vecLines (runMonitorSession envNoVec).output = [] :=
  ⟨by decide, by decide, by decide⟩

/-- C7: the two directory-counting implementations are equivalent over
every fixed snapshot, and both equal the number of immediate entries. -/
theorem claim_C7 (d : DirSnapshot) :
    lenListIterdir d = sumOneIterdir d
  ∧ lenListIterdir d = numEntries d
  ∧ sumOneIterdir d = numEntries d :=
  ⟨(sum_map_one (iterdir d)).symm, rfl, sum_map_one (iterdir d)⟩

/-- C8: directory entry counting is deterministic — over the same fixed
snapshot two runs of either counting expression return the same count. -/
theorem claim_C8 (d e : DirSnapshot) (h : d = e) :
    lenListIterdir d = lenListIterdir e
  ∧ sumOneIterdir d = sumOneIterdir e := by
  rw [h]
  exact ⟨rfl, rfl⟩

/-- Witness for C8 at a concrete snapshot. -/
theorem claim_C8_witness :
    lenListIterdir dirThree = lenListIterdir dirThree
  ∧ sumOneIterdir dirThree = sumOneIterdir dirThree :=
  claim_C8 dirThree dirThree rfl

/-- C9: every session is configured with exactly two endpoints on the
same host, a transport-security flag for each, and exactly three
timeouts — initialization, query, insert — and this configuration is the
same constant record in every environment. -/
theorem claim_C9 (env : Env) :
    (runMonitorSession env).params = notebookConnectionParams
  ∧ (runUploadSession env).params = notebookConnectionParams
  ∧ (runMonitorSession env).config = notebookAdditionalConfig
  ∧ (runUploadSession env).config = notebookAdditionalConfig
  ∧ notebookConnectionParams.http_host = notebookConnectionParams.grpc_host
  ∧ notebookConnectionParams.http_port ≠ notebookConnectionParams.grpc_port
  ∧ notebookConnectionParams.http_secure = HTTP_SECURE
  ∧ notebookConnectionParams.grpc_secure = GRPC_SECURE
  ∧ notebookAdditionalConfig.timeout =
      ⟨INTIALISATION_TIMEOUT_S, QUERY_TIMEOUT_S, INSERT_TIMEOUT_S⟩ :=
  ⟨rfl, rfl, rfl, rfl, rfl, by decide, rfl, rfl, rfl⟩

/-- C10: in every run where the liveness check fails, nothing has been
printed to standard output — in particular the banner is never printed —
and no collection operation has been requested before the assertion
error is raised. -/
theorem claim_C10 (env : Env) (h : env.live = false) :
    (runMonitorSession env).output = []
  ∧ (runMonitorSession env).calls = []
  ∧ (runMonitorSession env).result =
      .error (.assertionError "Weaviate client is not live")
  ∧ (runUploadSession env).output = []
  ∧ (runUploadSession env).calls = []
  ∧ (runUploadSession env).result =
      .error (.assertionError "Weaviate client is not live") := by
  rw [runMonitorSession_eq, runUploadSession_eq,
    monitorBody_dead env env.store h, uploadBody_dead env env.store h]
  exact ⟨rfl, rfl, rfl, rfl, rfl, rfl⟩

/-- Witness for C10 at the concrete not-live environment. -/
theorem claim_C10_witness :
    (runMonitorSession envDead).output = []
  ∧ (runMonitorSession envDead).calls = []
  ∧ (runMonitorSession envDead).result =
      .error (.assertionError "Weaviate client is not live")
  ∧ (runUploadSession envDead).output = []
  ∧ (runUploadSession envDead).calls = []
  ∧ (runUploadSession envDead).result =
      .error (.assertionError "Weaviate client is not live") :=
  claim_C10 envDead rfl
